import Mathlib

/-!
Verification of the ImageGen backend's request-normalization core.

The definitions below are a shallow embedding of the TypeScript source:
  * `src/server/lib/openai.ts` — `generateImage`, `editImage`,
    `createImageVariations`: per-model upstream payload construction,
    magic-byte MIME classification, and response normalization;
  * the Express routes file — `/api/generate`, `/api/flower-generate`,
    `/api/batch-flower-generate` handlers;
  * the shared Zod schema (`generateImageSchema`) and the flower template
    module (`FLOWER_TEMPLATES`, `processTemplate`).

JavaScript conventions are embedded explicitly: an absent object key is
`Option.none`; JS string truthiness (`if (s)`) is "present and non-empty";
byte buffers are `List Nat` of values < 256; a thrown exception is the
`Except.error` case; network calls are oracle parameters, and a handler
records the upstream requests it issued so that "no call was attempted"
is a statement about the returned record.
-/

namespace ImageGen

/-- The model enum of `generateImageSchema` (four accepted values). The
`generateImage` function compares the model against the string literals
"dall-e-3" and "gpt-image-1", so any other value (including the Gemini
model, which the routes cast away) takes the `else` branches. -/
inductive ApiModel where
  | dallE2
  | dallE3
  | gptImage1
  | gemini
deriving DecidableEq, BEq

/-- `quality` vocabulary accepted by the schema (union of both models'). -/
inductive Quality where
  | standard
  | hd
  | auto
  | high
  | medium
  | low
deriving DecidableEq, BEq

/-- `style` vocabulary (dall-e-3 only). -/
inductive Style where
  | vivid
  | natural
deriving DecidableEq, BEq

/-- `response_format` vocabulary. -/
inductive RespFormat where
  | url
  | b64_json
deriving DecidableEq, BEq

/-- `output_format` vocabulary (gpt-image-1 only). -/
inductive OutFormat where
  | png
  | jpeg
  | webp
deriving DecidableEq, BEq

/-- `background` vocabulary (gpt-image-1 only); the source value
"opaque" is a Lean keyword, renamed `opaqueBg`. -/
inductive Background where
  | auto
  | transparent
  | opaqueBg
deriving DecidableEq, BEq

/-- `moderation` vocabulary (gpt-image-1 only). -/
inductive Moderation where
  | auto
  | low
deriving DecidableEq, BEq

/-- JS string truthiness of an optional string value: the key is present
and the string non-empty. -/
def strTruthy : Option String → Bool
  | none => false
  | some s => !(s == "")

/-- `if (params.user) requestBody.user = params.user`: forward the user
tag only when truthy (present and non-empty). -/
def optTruthy : Option String → Option String
  | none => none
  | some u => if u = "" then none else some u

/-- The validated generation request: `params` of `generateImage`
(openai.ts lines 8-21), which is what `generateImageSchema.parse`
produces (defaults already applied). -/
structure GenParams where
  prompt : String
  model : ApiModel
  size : String
  n : Int
  quality : Option Quality := none
  style : Option Style := none
  response_format : Option RespFormat := none
  output_format : Option OutFormat := none
  output_compression : Option Int := none
  background : Option Background := none
  moderation : Option Moderation := none
  user : Option String := none
deriving DecidableEq

/-- The `requestBody` object `generateImage` builds (openai.ts lines
27-75): a field that the source never assigns for the given model is the
absent key `none`. -/
structure GenRequestBody where
  model : ApiModel
  prompt : String
  size : String
  n : Int
  quality : Option Quality := none
  style : Option Style := none
  response_format : Option RespFormat := none
  output_format : Option OutFormat := none
  output_compression : Option Int := none
  background : Option Background := none
  moderation : Option Moderation := none
  user : Option String := none
deriving DecidableEq

/-- openai.ts lines 27-75, one field per conditional assignment:
  * lines 33-38: `n` is 1 for dall-e-3, else the requested `n`;
  * lines 41-48 (dall-e-3 only): `quality` if in ["standard","hd"],
    `style` if present;
  * lines 50-66 (gpt-image-1 only): `quality` if in
    ["auto","high","medium","low"], `output_format`, `output_compression`
    (an explicit `!== undefined` check), `background`, `moderation`,
    each only when present;
  * lines 69-71: `response_format` for every model except gpt-image-1,
    when present;
  * lines 73-75: `user` when truthy. -/
def buildGenerateRequestBody (p : GenParams) : GenRequestBody :=
  { model := p.model
  , prompt := p.prompt
  , size := p.size
  , n := if p.model = ApiModel.dallE3 then 1 else p.n
  , quality :=
      if p.model = ApiModel.dallE3 then
        match p.quality with
        | some q => if q = Quality.standard ∨ q = Quality.hd then some q else none
        | none => none
      else if p.model = ApiModel.gptImage1 then
        match p.quality with
        | some q =>
            if q = Quality.auto ∨ q = Quality.high ∨ q = Quality.medium ∨ q = Quality.low then
              some q
            else none
        | none => none
      else none
  , style := if p.model = ApiModel.dallE3 then p.style else none
  , response_format := if p.model ≠ ApiModel.gptImage1 then p.response_format else none
  , output_format := if p.model = ApiModel.gptImage1 then p.output_format else none
  , output_compression := if p.model = ApiModel.gptImage1 then p.output_compression else none
  , background := if p.model = ApiModel.gptImage1 then p.background else none
  , moderation := if p.model = ApiModel.gptImage1 then p.moderation else none
  , user := optTruthy p.user }

/-! ## Response normalization (openai.ts lines 80-88, 197-205, 243-251)

The upstream SDK returns `response.data`, possibly `undefined`, holding a
list of images each carrying optional `url` and `b64_json` keys. The
source maps over it with a callback that throws on an image with neither
truthy field, and falls back to `[]` when `data` is `undefined`. -/

/-- One element of the upstream response's image list. -/
structure UpstreamImage where
  url : Option String := none
  b64_json : Option String := none
deriving DecidableEq

/-- The map callback of openai.ts lines 80-88: `if (image.url)` is a JS
truthiness test, so a present-but-empty `url` falls through to
`b64_json`, and a throw is the `error` case. -/
def normalizeImage (img : UpstreamImage) : Except String String :=
  if strTruthy img.url then Except.ok (img.url.getD "")
  else if strTruthy img.b64_json then
    Except.ok ("data:image/png;base64," ++ img.b64_json.getD "")
  else Except.error "Invalid response format from OpenAI API"

/-- `data.map(callback)` where the callback may throw: elements are
normalized left to right and the first throw aborts the whole map. -/
def normalizeImages : List UpstreamImage → Except String (List String)
  | [] => Except.ok []
  | img :: rest =>
    match normalizeImage img with
    | Except.error e => Except.error e
    | Except.ok s =>
      match normalizeImages rest with
      | Except.error e => Except.error e
      | Except.ok ss => Except.ok (s :: ss)

/-- `response.data?.map(...) || []`: an `undefined` data list yields `[]`;
otherwise the throwing map over the list. -/
def normalizeResponse (data : Option (List UpstreamImage)) : Except String (List String) :=
  match data with
  | none => Except.ok []
  | some imgs => normalizeImages imgs

/-- `generateImage` around its network call (openai.ts lines 77-91): build
the body, issue it to the upstream oracle, normalize, and wrap any failure
in the catch-all message prefix of line 90. -/
def generateImageFn (up : GenRequestBody → Except String (Option (List UpstreamImage)))
    (p : GenParams) : Except String (List String) :=
  match up (buildGenerateRequestBody p) with
  | Except.error e => Except.error ("Failed to generate image: " ++ e)
  | Except.ok data =>
    match normalizeResponse data with
    | Except.ok urls => Except.ok urls
    | Except.error e => Except.error ("Failed to generate image: " ++ e)

/-! ## File/MIME classification and the edit payload (openai.ts lines 94-209) -/

/-- One lowercase hex digit, as produced by Node's `toString('hex')`. -/
def hexDigit (n : Nat) : Char :=
  match n with
  | 0 => '0' | 1 => '1' | 2 => '2' | 3 => '3'
  | 4 => '4' | 5 => '5' | 6 => '6' | 7 => '7'
  | 8 => '8' | 9 => '9' | 10 => 'a' | 11 => 'b'
  | 12 => 'c' | 13 => 'd' | 14 => 'e' | _ => 'f'

/-- `buffer.toString('hex')` as a character list: two lowercase hex digits
per byte, in buffer order. -/
def bytesToHex : List Nat → List Char
  | [] => []
  | b :: bs => hexDigit (b % 256 / 16) :: hexDigit (b % 256 % 16) :: bytesToHex bs

/-- `String.prototype.startsWith` on character lists: does `text` begin
with `pat`? -/
def leadingMatch : List Char → List Char → Bool
  | [], _ => true
  | _ :: _, [] => false
  | c :: cs, d :: ds => c == d && leadingMatch cs ds

/-- `buffer.toString('hex').startsWith(pat)`. -/
def hexStartsWith (buffer : List Nat) (pat : String) : Bool :=
  leadingMatch pat.toList (bytesToHex buffer)

/-- The MIME sniff of openai.ts lines 119-120, in source order: hex prefix
"89504e47" (the PNG signature) → "image/png", else hex prefix "ffd8ffe"
(three JPEG bytes and the high nibble of the fourth) → "image/jpeg", else
the "image/webp" fallback. It is a function of the bytes alone: no
caller-provided name or extension is an input. -/
def classifyMime (buffer : List Nat) : String :=
  if hexStartsWith buffer "89504e47" then "image/png"
  else if hexStartsWith buffer "ffd8ffe" then "image/jpeg"
  else "image/webp"

/-- A `File` object handed to the upstream SDK: name, MIME type, bytes. -/
structure FileObj where
  name : String
  type : String
  data : List Nat
deriving DecidableEq

/-- `String.prototype.split(sep)` on character lists. -/
def splitChars (sep : Char) : List Char → List (List Char)
  | [] => [[]]
  | c :: rest =>
    if c == sep then [] :: splitChars sep rest
    else
      match splitChars sep rest with
      | [] => [[c]]
      | g :: gs => (c :: g) :: gs

/-- openai.ts line 123: `image<index>.<subtype>` with the sniffed type,
where the subtype is `mimeType.split('/')[1]`. -/
def convertImageFile (index : Nat) (buffer : List Nat) : FileObj :=
  let mimeType := classifyMime buffer
  { name := "image" ++ toString index ++ "."
      ++ String.mk (((splitChars '/' mimeType.toList).getD 1 []))
  , type := mimeType
  , data := buffer }

/-- `imageFiles.map((buffer, index) => ...)`: every buffer converted, in
order, with its position as the index. -/
def convertImageFiles (index : Nat) : List (List Nat) → List FileObj
  | [] => []
  | b :: bs => convertImageFile index b :: convertImageFiles (index + 1) bs

/-- openai.ts lines 126-130: a mask is always re-labeled
`mask.png` / `image/png`, whatever its bytes; the magic-byte sniff is
never consulted for it. -/
def convertMask (mask : List Nat) : FileObj :=
  { name := "mask.png", type := "image/png", data := mask }

/-- The `image` field of the edit payload: a single file or an ordered
list of files. -/
inductive ImagePayload where
  | single (f : FileObj)
  | multiple (fs : List FileObj)
deriving DecidableEq

/-- The model enum of `editImageSchema` (two accepted values). -/
inductive EditModel where
  | dallE2
  | gptImage1
deriving DecidableEq, BEq

/-- The validated edit request: `params` of `editImage` (openai.ts lines
97-108). -/
structure EditParams where
  prompt : String
  model : EditModel
  size : String
  n : Int
  quality : Option Quality := none
  response_format : Option RespFormat := none
  output_format : Option OutFormat := none
  output_compression : Option Int := none
  background : Option Background := none
  user : Option String := none
deriving DecidableEq

/-- The `requestBody` object `editImage` builds (openai.ts lines 133-192). -/
structure EditRequestBody where
  prompt : String
  model : EditModel
  size : String
  n : Int
  image : Option ImagePayload := none
  mask : Option FileObj := none
  quality : Option Quality := none
  response_format : Option RespFormat := none
  output_format : Option OutFormat := none
  output_compression : Option Int := none
  background : Option Background := none
  user : Option String := none
deriving DecidableEq

/-- openai.ts lines 133-192, one field per conditional assignment:
  * line 142 (dall-e-2): `image` is `imageFiles_converted[0]` — the first
    converted file, `undefined` (here `none`) on an empty upload list;
  * line 155 (gpt-image-1): `image` is the single converted file when the
    list has exactly one element, else the whole ordered list;
  * lines 145-146 and 158-165: both model branches attach the converted
    mask exactly when a mask buffer was supplied;
  * lines 170-183 (gpt-image-1 only): `quality` if in
    ["auto","high","medium","low"], then `output_format`,
    `output_compression` (`!== undefined`), `background` when present;
  * lines 186-188: `response_format` for dall-e-2 only, when present;
  * lines 190-192: `user` when truthy. -/
def buildEditRequestBody (imageFiles : List (List Nat)) (maskFile : Option (List Nat))
    (p : EditParams) : EditRequestBody :=
  let converted := convertImageFiles 0 imageFiles
  { prompt := p.prompt
  , model := p.model
  , size := p.size
  , n := p.n
  , image :=
      match p.model with
      | EditModel.dallE2 => (converted.get? 0).map ImagePayload.single
      | EditModel.gptImage1 =>
          some (match converted with
                | [f] => ImagePayload.single f
                | fs => ImagePayload.multiple fs)
  , mask := maskFile.map convertMask
  , quality :=
      if p.model = EditModel.gptImage1 then
        match p.quality with
        | some q =>
            if q = Quality.auto ∨ q = Quality.high ∨ q = Quality.medium ∨ q = Quality.low then
              some q
            else none
        | none => none
      else none
  , response_format := if p.model = EditModel.dallE2 then p.response_format else none
  , output_format := if p.model = EditModel.gptImage1 then p.output_format else none
  , output_compression := if p.model = EditModel.gptImage1 then p.output_compression else none
  , background := if p.model = EditModel.gptImage1 then p.background else none
  , user := optTruthy p.user }

/-! ## Variations payload (openai.ts lines 211-240) -/

/-- A `Blob` handed to the upstream SDK: MIME type and bytes, no name. -/
structure BlobObj where
  type : String
  data : List Nat
deriving DecidableEq

/-- The validated variations request: `params` of `createImageVariations`
(openai.ts lines 213-218); `size` is one of three fixed strings and
`response_format` is mandatory (the schema defaults it to "url"). -/
structure VariationParams where
  n : Int
  size : String
  response_format : RespFormat
  user : Option String := none
deriving DecidableEq

/-- The `requestBody` object `createImageVariations` builds (lines
226-238): `image`, `n`, `size` and `response_format` are assigned
unconditionally; `user` only when truthy. -/
structure VariationRequestBody where
  image : BlobObj
  n : Int
  size : String
  response_format : RespFormat
  user : Option String := none
deriving DecidableEq

/-- openai.ts lines 226-238: the uploaded buffer becomes a Blob typed
`image/png` with no magic-byte sniff, and the four mandatory fields are
copied from the request. -/
def buildVariationRequestBody (imageFile : List Nat) (p : VariationParams) : VariationRequestBody :=
  { image := { type := "image/png", data := imageFile }
  , n := p.n
  , size := p.size
  , response_format := p.response_format
  , user := optTruthy p.user }

/-! ## Flower templates (shared/templates.ts) and route handlers -/

/-- One substitutable variable of a flower template. -/
structure FlowerVariable where
  name : String
  placeholder : String
  defaultValue : String
deriving DecidableEq

/-- A flower prompt template. -/
structure FlowerTemplate where
  id : String
  name : String
  description : String
  /-- Source field name: `variables` (a Lean keyword, so renamed). -/
  vars : List FlowerVariable
  promptTemplate : String
deriving DecidableEq

/-- The "single-branch" template of `FLOWER_TEMPLATES`. -/
def singleBranchTemplate : FlowerTemplate :=
  { id := "single-branch"
  , name := "Gen nhánh hoa"
  , description := "Tạo hình ảnh nhánh hoa đơn với một bông hoa nở"
  , vars :=
      [ { name := "flower_name"
        , placeholder := "Tên loài hoa (ví dụ: Yellow Lily)"
        , defaultValue := "Yellow Lily" }
      , { name := "petal_color"
        , placeholder := "Màu cánh hoa (ví dụ: golden yellow)"
        , defaultValue := "golden yellow" }
      , { name := "anther_color"
        , placeholder := "Màu nhị hoa (ví dụ: warm brown)"
        , defaultValue := "warm brown" }
      , { name := "filament_color"
        , placeholder := "Màu chỉ nhị (ví dụ: pale yellow)"
        , defaultValue := "pale yellow" } ]
  , promptTemplate := "SUBJECT: single [\x7b\x7bflower_name\x7d\x7d] branch; stem have 2 leaves and one bloom flower \nSTYLE: semi-realistic; product illustration; clean, perfect surfaces.\nCOLOR: petals [\x7b\x7bpetal_color\x7d\x7d]; leaves fresh green; anthers [\x7b\x7banther_color\x7d\x7d]; filaments [\x7b\x7bfilament_color\x7d\x7d]; saturation even.\nFORM: lifelike shape; soft curved tepals; clear layering; visible stamen/pistil; slender lanceolate leaves; visible stem nodes.\nSURFACE/TEXTURE: smooth; even color; pristine; no wrinkles/spots/dust/blemishes/wilt.\nLIGHTING: neutral studio; softbox key and gentle fill; soft, diffused shadow; no color cast.\nCAMERA: minimal perspective; slight 3/4 angle.\nCOMPOSITION: centered; ample breathing room; clear silhouette; clean edges; easy cutout.\nFINISH: smooth highlights; subtle micro-specular; not plastic; not painterly; no grain.\nNEGATIVE: imperfections; wilted/torn; insect damage; water droplets; vase/props; colored/gradient bg; harsh/deep shadows; crushed blacks; chromatic aberration; vignette; noise; oversaturation; oversharpening; text/watermark/logo/frame; blur/motion blur; cartoon/toy look." }

/-- The "bouquet" template of `FLOWER_TEMPLATES`. -/
def bouquetTemplate : FlowerTemplate :=
  { id := "bouquet"
  , name := "Gen bó hoa"
  , description := "Tạo hình ảnh bó hoa với nhiều bông hoa nở"
  , vars :=
      [ { name := "flower_name"
        , placeholder := "Tên loài hoa (ví dụ: Yellow Lily)"
        , defaultValue := "Yellow Lily" }
      , { name := "petal_color"
        , placeholder := "Màu cánh hoa (ví dụ: golden yellow)"
        , defaultValue := "golden yellow" }
      , { name := "anther_color"
        , placeholder := "Màu nhị hoa (ví dụ: warm brown)"
        , defaultValue := "warm brown" }
      , { name := "filament_color"
        , placeholder := "Màu chỉ nhị (ví dụ: pale yellow)"
        , defaultValue := "pale yellow" } ]
  , promptTemplate := "SUBJECT: bouquet of [\x7b\x7bflower_name\x7d\x7d] stems; 7–9 open blooms with a few buds; multiple stems with leaves.\nSTYLE: semi-realistic; product illustration; clean, perfect surfaces.\nCOLOR: petals [\x7b\x7bpetal_color\x7d\x7d]; leaves fresh green; anthers [\x7b\x7banther_color\x7d\x7d]; filaments [\x7b\x7bfilament_color\x7d\x7d]; saturation even.\nFORM: lifelike shape; petals show gentle thickness and depth; soft curved tepals; clear layering; visible stamen/pistil; slender lanceolate leaves; mix of front and slight 3/4 bloom angles; natural size variation across flowers.\nSURFACE/TEXTURE: smooth; even color; pristine; minimal vein details on petals and leaves (subtle, softened); no wrinkles/spots/dust/blemishes/wilt.\nLIGHTING: neutral studio; softbox key and gentle fill; soft, diffused shadow; no color cast.\nCAMERA: minimal perspective; product-macro feel; slight 3/4 overall.\nCOMPOSITION: centered bouquet; fan/triangular silhouette; ample breathing room; clear overlapping hierarchy; clean edges; easy cutout.\nFINISH: smooth highlights; subtle micro-specular; not plastic; not painterly; no grain.\nNEGATIVE: imperfections; wilted/torn; insect damage; water droplets; ribbon/tie; vase/props; colored/gradient bg; harsh/deep shadows; crushed blacks; chromatic aberration; vignette; noise; oversaturation; oversharpening; text/watermark/logo/frame; blur/motion blur; cartoon/toy look." }

/-- `FLOWER_TEMPLATES`. -/
def flowerTemplates : List FlowerTemplate := [singleBranchTemplate, bouquetTemplate]

/-- `FLOWER_TEMPLATES.find(t => t.id === templateId)`. -/
def findFlowerTemplate (templateId : String) : Option FlowerTemplate :=
  flowerTemplates.find? (fun t => t.id == templateId)

/-- A JS `Record<string, string>` value lookup. -/
def lookupVar (vars : List (String × String)) (key : String) : Option String :=
  (vars.find? (fun kv => kv.1 == key)).map Prod.snd

/-- `replace(new RegExp(pat, 'g'), repl)` for a literal non-empty
pattern, on character lists: every leftmost non-overlapping occurrence is
replaced, scanning left to right and resuming after each replacement.
The fuel argument only bounds the recursion (each step consumes at least
one character, so any fuel at least the list's length is enough) and
keeps the definition structurally recursive, hence kernel-evaluable. -/
def replaceAllCharsGo (pat repl : List Char) : Nat → List Char → List Char
  | _, [] => []
  | 0, l => l
  | Nat.succ fuel, c :: rest =>
    if pat.length = 0 then c :: rest
    else if leadingMatch pat (c :: rest) then
      repl ++ replaceAllCharsGo pat repl fuel (List.drop pat.length (c :: rest))
    else c :: replaceAllCharsGo pat repl fuel rest

/-- `replaceAllCharsGo` with enough fuel for the whole text. -/
def replaceAllChars (pat repl l : List Char) : List Char :=
  replaceAllCharsGo pat repl l.length l

/-- The string form of `replaceAllChars`. -/
def replaceAll (s pat repl : String) : String :=
  String.mk (replaceAllChars pat.toList repl.toList s.toList)

/-- `processTemplate` (templates.ts): for each template variable, replace
every occurrence of its placeholder with the supplied value, falling back
to the default for a missing or empty value (`variables[name] ||
defaultValue`). Pure string work: it cannot throw. -/
def processTemplate (template : FlowerTemplate) (vars : List (String × String)) : String :=
  template.vars.foldl
    (fun acc v =>
      let value :=
        match lookupVar vars v.name with
        | some s => if s = "" then v.defaultValue else s
        | none => v.defaultValue
      replaceAll acc ("\x7b\x7b" ++ v.name ++ "\x7d\x7d") value)
    template.promptTemplate

/-! ## Schema validation for `/api/generate` (shared/schema.ts,
`generateImageSchema`)

Zod aggregates all issues into one thrown error whose `message` is a
rendering of them; the embedding returns the first violated constraint's
message, which is enough to state that a schema failure carries a schema
violation message. A raw body field is `none` when the JSON key is
absent. -/

/-- The raw JSON body of a generation request, before validation. -/
structure RawGenerateBody where
  prompt : Option String := none
  model : Option String := none
  size : Option String := none
  n : Option Int := none
  quality : Option String := none
  style : Option String := none
  response_format : Option String := none
  output_format : Option String := none
  output_compression : Option Int := none
  background : Option String := none
  moderation : Option String := none
  user : Option String := none
deriving DecidableEq

/-- `z.enum(["dall-e-2","dall-e-3","gpt-image-1","gemini-2.5-flash-image-preview"])`. -/
def parseApiModel (s : String) : Except String ApiModel :=
  if s = "dall-e-2" then Except.ok ApiModel.dallE2
  else if s = "dall-e-3" then Except.ok ApiModel.dallE3
  else if s = "gpt-image-1" then Except.ok ApiModel.gptImage1
  else if s = "gemini-2.5-flash-image-preview" then Except.ok ApiModel.gemini
  else Except.error "Invalid enum value"

/-- `z.enum(["standard","hd","auto","high","medium","low"])`. -/
def parseQuality (s : String) : Except String Quality :=
  if s = "standard" then Except.ok Quality.standard
  else if s = "hd" then Except.ok Quality.hd
  else if s = "auto" then Except.ok Quality.auto
  else if s = "high" then Except.ok Quality.high
  else if s = "medium" then Except.ok Quality.medium
  else if s = "low" then Except.ok Quality.low
  else Except.error "Invalid enum value"

/-- `z.enum(["vivid","natural"])`. -/
def parseStyle (s : String) : Except String Style :=
  if s = "vivid" then Except.ok Style.vivid
  else if s = "natural" then Except.ok Style.natural
  else Except.error "Invalid enum value"

/-- `z.enum(["url","b64_json"])`. -/
def parseRespFormat (s : String) : Except String RespFormat :=
  if s = "url" then Except.ok RespFormat.url
  else if s = "b64_json" then Except.ok RespFormat.b64_json
  else Except.error "Invalid enum value"

/-- `z.enum(["png","jpeg","webp"])`. -/
def parseOutFormat (s : String) : Except String OutFormat :=
  if s = "png" then Except.ok OutFormat.png
  else if s = "jpeg" then Except.ok OutFormat.jpeg
  else if s = "webp" then Except.ok OutFormat.webp
  else Except.error "Invalid enum value"

/-- `z.enum(["auto","transparent","opaque"])`. -/
def parseBackground (s : String) : Except String Background :=
  if s = "auto" then Except.ok Background.auto
  else if s = "transparent" then Except.ok Background.transparent
  else if s = "opaque" then Except.ok Background.opaqueBg
  else Except.error "Invalid enum value"

/-- `z.enum(["auto","low"])`. -/
def parseModeration (s : String) : Except String Moderation :=
  if s = "auto" then Except.ok Moderation.auto
  else if s = "low" then Except.ok Moderation.low
  else Except.error "Invalid enum value"

/-- An `.optional()` field: absent is fine, present must parse. -/
def parseOptEnum {α : Type} (o : Option String) (f : String → Except String α) :
    Except String (Option α) :=
  match o with
  | none => Except.ok none
  | some s => (f s).map some

/-- `generateImageSchema.parse`: required non-empty prompt; enum fields;
`n` in [1,10] with default 1; `output_compression` in [0,100]; defaults
"dall-e-2" and "512x512" for model and size. -/
def parseGenerateBody (b : RawGenerateBody) : Except String GenParams := do
  let prompt ← match b.prompt with
    | none => Except.error "Required"
    | some s => if s = "" then Except.error "Prompt is required" else Except.ok s
  let model ← match b.model with
    | none => Except.ok ApiModel.dallE2
    | some s => parseApiModel s
  let size := b.size.getD "512x512"
  let n ← match b.n with
    | none => Except.ok (1 : Int)
    | some v =>
        if v < 1 then Except.error "Number must be greater than or equal to 1"
        else if v > 10 then Except.error "Number must be less than or equal to 10"
        else Except.ok v
  let quality ← parseOptEnum b.quality parseQuality
  let style ← parseOptEnum b.style parseStyle
  let response_format ← parseOptEnum b.response_format parseRespFormat
  let output_format ← parseOptEnum b.output_format parseOutFormat
  let output_compression ← match b.output_compression with
    | none => Except.ok (none : Option Int)
    | some v =>
        if v < 0 then Except.error "Number must be greater than or equal to 0"
        else if v > 100 then Except.error "Number must be less than or equal to 100"
        else Except.ok (some v)
  let background ← parseOptEnum b.background parseBackground
  let moderation ← parseOptEnum b.moderation parseModeration
  Except.ok
    { prompt := prompt, model := model, size := size, n := n
    , quality := quality, style := style, response_format := response_format
    , output_format := output_format, output_compression := output_compression
    , background := background, moderation := moderation, user := b.user }

/-! ## Route handlers (routes.ts) -/

/-- Server-held credentials read from process configuration. -/
structure ServerEnv where
  openaiApiKey : Option String := none
  geminiApiKey : Option String := none

/-- `apiKey && apiKey.startsWith("sk-")` (the prefix test spelled out on
the character list). -/
def keyOkSk : Option String → Bool
  | none => false
  | some k => leadingMatch "sk-".toList k.toList

/-- JS truthiness of an optional configuration value
(`!process.env.GEMINI_API_KEY` fails for absent or empty). -/
def keyTruthy : Option String → Bool
  | none => false
  | some k => !(k == "")

/-- What a handler sent back, plus the upstream image-API requests it
issued while handling (empty when no upstream call was attempted). -/
structure HandlerResult where
  status : Nat
  message : Option String := none
  imageUrls : Option (List String) := none
  upstreamRequests : List GenRequestBody := []

/-- The `/api/generate` handler (routes.ts lines 198-232): parse the body
(a Zod throw lands in the catch-all, which answers 500 with the error's
message), check the server key, reject the Gemini model with 400, then
call `generateImage` — whose single upstream request is recorded — and
answer 200 with the urls or 500 with the failure message. -/
def generateHandler (env : ServerEnv)
    (up : GenRequestBody → Except String (Option (List UpstreamImage)))
    (raw : RawGenerateBody) : HandlerResult :=
  match parseGenerateBody raw with
  | Except.error e =>
      { status := 500
      , message := some (if e = "" then
          "Failed to generate image. Please check your prompt and try again." else e) }
  | Except.ok v =>
      if keyOkSk env.openaiApiKey = false then
        { status := 500, message := some "OpenAI API key not configured on server" }
      else if v.model = ApiModel.gemini then
        { status := 400, message := some "Gemini model is only available for flower generation" }
      else
        match generateImageFn up v with
        | Except.ok urls =>
            { status := 200, imageUrls := some urls
            , upstreamRequests := [buildGenerateRequestBody v] }
        | Except.error e =>
            { status := 500
            , message := some (if e = "" then
                "Failed to generate image. Please check your prompt and try again." else e)
            , upstreamRequests := [buildGenerateRequestBody v] }

/-- The validated flower-generation request (`flowerGenerationSchema`).
Source field name `variables` is a Lean keyword, renamed `vars`. -/
structure FlowerRequest where
  templateId : String
  vars : List (String × String)
  model : ApiModel
  size : String
  n : Int
  quality : Option Quality := none
  style : Option Style := none
  response_format : Option RespFormat := none
  output_format : Option OutFormat := none
  output_compression : Option Int := none
  background : Option Background := none
  moderation : Option Moderation := none
  user : Option String := none
  referenceImages : Option (List String) := none

/-- The Gemini branch's OpenAI call data (routes.ts lines 274-279):
`...baseFields` (the validated request minus templateId, variables and
referenceImages) with the enhanced prompt and the model forced to
"gpt-image-1". -/
def flowerGeminiParams (req : FlowerRequest) (enhanced : String) : GenParams :=
  { prompt := enhanced, model := ApiModel.gptImage1, size := req.size, n := req.n
  , quality := req.quality, style := req.style, response_format := req.response_format
  , output_format := req.output_format, output_compression := req.output_compression
  , background := req.background, moderation := req.moderation, user := req.user }

/-- The OpenAI branch's call data (routes.ts lines 284-289): the validated
request minus the non-OpenAI fields, with the processed prompt. -/
def flowerOpenaiParams (req : FlowerRequest) (processedPrompt : String) : GenParams :=
  { prompt := processedPrompt, model := req.model, size := req.size, n := req.n
  , quality := req.quality, style := req.style, response_format := req.response_format
  , output_format := req.output_format, output_compression := req.output_compression
  , background := req.background, moderation := req.moderation, user := req.user }

/-- A call to an external vendor, as recorded by the flower handlers:
the secondary vendor's text model (`generateImageDescription`), the
secondary vendor's image endpoint (`GeminiService.generateImage` — never
issued by any route), or the primary vendor's image API. -/
inductive VendorCall where
  | geminiText (prompt : String)
  | geminiImage (prompt : String)
  | openaiImages (body : GenRequestBody)

/-- What the flower handler sent back plus every external-vendor call it
made, in order. -/
structure FlowerOutcome where
  status : Nat
  message : Option String := none
  imageUrls : Option (List String) := none
  calls : List VendorCall := []

/-- The `/api/flower-generate` catch-all fallback message. -/
def flowerFallbackMsg : String :=
  "Failed to generate flower image. Please check your settings and try again."

/-- The `/api/flower-generate` handler after schema validation (routes.ts
lines 240-302): check the OpenAI key, look up the template, process it;
for the Gemini model check the Gemini key (truthiness of the env var),
call the text model for an enhanced prompt, and generate with the primary
vendor on "gpt-image-1"; for OpenAI models generate directly. `gT` is
the secondary vendor's text service (`generateImageDescription`), `up`
the primary vendor's image API; any throw lands in the catch-all, which
answers 500 with the error's message (or the fallback if empty). -/
def flowerGenerateCore (env : ServerEnv) (gT : String → Except String String)
    (up : GenRequestBody → Except String (Option (List UpstreamImage)))
    (req : FlowerRequest) : FlowerOutcome :=
  if keyOkSk env.openaiApiKey = false then
    { status := 500, message := some "OpenAI API key not configured on server" }
  else
    match findFlowerTemplate req.templateId with
    | none => { status := 400, message := some "Invalid template ID" }
    | some tmpl =>
      let processedPrompt := processTemplate tmpl req.vars
      if req.model = ApiModel.gemini then
        if keyTruthy env.geminiApiKey = false then
          { status := 500, message := some "Gemini API key not configured on server" }
        else
          match gT processedPrompt with
          | Except.error e =>
              { status := 500, message := some (if e = "" then flowerFallbackMsg else e)
              , calls := [VendorCall.geminiText processedPrompt] }
          | Except.ok enhanced =>
              match generateImageFn up (flowerGeminiParams req enhanced) with
              | Except.ok urls =>
                  { status := 200, imageUrls := some urls
                  , calls := [VendorCall.geminiText processedPrompt,
                              VendorCall.openaiImages
                                (buildGenerateRequestBody (flowerGeminiParams req enhanced))] }
              | Except.error e =>
                  { status := 500, message := some (if e = "" then flowerFallbackMsg else e)
                  , calls := [VendorCall.geminiText processedPrompt,
                              VendorCall.openaiImages
                                (buildGenerateRequestBody (flowerGeminiParams req enhanced))] }
      else
        match generateImageFn up (flowerOpenaiParams req processedPrompt) with
        | Except.ok urls =>
            { status := 200, imageUrls := some urls
            , calls := [VendorCall.openaiImages
                (buildGenerateRequestBody (flowerOpenaiParams req processedPrompt))] }
        | Except.error e =>
            { status := 500, message := some (if e = "" then flowerFallbackMsg else e)
            , calls := [VendorCall.openaiImages
                (buildGenerateRequestBody (flowerOpenaiParams req processedPrompt))] }

/-! ## Batch fan-out (`/api/batch-flower-generate`, routes.ts lines
306-398)

Each batch item is processed by `processGenerationTask`, whose own
try/catch records a failure as a per-item result; `Promise.all` over the
item list returns the settled results in submission order, which for
these independent tasks is `List.map`. -/

/-- One batch item (`batchFlowerItemSchema`). Source field name
`variables` is a Lean keyword, renamed `vars`. -/
structure BatchItem where
  referenceImageId : String
  vars : List (String × String)

/-- One per-item result (`batchFlowerResultSchema`): `error` is the
absent key on success. -/
structure BatchResult where
  referenceImageId : String
  vars : List (String × String)
  processedPrompt : String
  imageUrls : List String
  error : Option String

/-- The shared configuration of a batch request (`validatedData` minus
`items` and `templateId`). -/
structure BatchShared where
  model : ApiModel
  size : String
  n : Int
  quality : Option Quality := none
  style : Option Style := none
  response_format : Option RespFormat := none
  output_format : Option OutFormat := none
  output_compression : Option Int := none
  background : Option Background := none
  moderation : Option Moderation := none
  user : Option String := none

/-- The batch Gemini branch's OpenAI call data (routes.ts lines 346-351):
`...baseFields` with the enhanced prompt and the model forced to
"gpt-image-1". -/
def batchGeminiParams (shared : BatchShared) (enhanced : String) : GenParams :=
  { prompt := enhanced, model := ApiModel.gptImage1, size := shared.size, n := shared.n
  , quality := shared.quality, style := shared.style
  , response_format := shared.response_format, output_format := shared.output_format
  , output_compression := shared.output_compression, background := shared.background
  , moderation := shared.moderation, user := shared.user }

/-- The batch OpenAI branch's call data (routes.ts lines 356-361). -/
def batchOpenaiParams (shared : BatchShared) (processedPrompt : String) : GenParams :=
  { prompt := processedPrompt, model := shared.model, size := shared.size, n := shared.n
  , quality := shared.quality, style := shared.style
  , response_format := shared.response_format, output_format := shared.output_format
  , output_compression := shared.output_compression, background := shared.background
  , moderation := shared.moderation, user := shared.user }

/-- The model branch inside `processGenerationTask`'s try block (routes.ts
lines 334-364): for the Gemini model a missing key is a throw, otherwise
the text rewrite feeds "gpt-image-1" generation; for OpenAI models,
direct generation. -/
def batchItemGen (env : ServerEnv) (gT : String → Except String String)
    (up : GenRequestBody → Except String (Option (List UpstreamImage)))
    (shared : BatchShared) (processedPrompt : String) : Except String (List String) :=
  if shared.model = ApiModel.gemini then
    if keyTruthy env.geminiApiKey = false then
      Except.error "Gemini API key not configured on server"
    else
      match gT processedPrompt with
      | Except.error e => Except.error e
      | Except.ok enhanced => generateImageFn up (batchGeminiParams shared enhanced)
  else generateImageFn up (batchOpenaiParams shared processedPrompt)

/-- `processGenerationTask` (routes.ts lines 327-382): process the
template for this item, run the model branch, and either return the
success result or — in the catch — the failure result with the
re-processed prompt, empty `imageUrls` and
`error.message || "Failed to generate image"`. -/
def processGenerationTask (env : ServerEnv) (gT : String → Except String String)
    (up : GenRequestBody → Except String (Option (List UpstreamImage)))
    (shared : BatchShared) (tmpl : FlowerTemplate) (item : BatchItem) : BatchResult :=
  let processedPrompt := processTemplate tmpl item.vars
  match batchItemGen env gT up shared processedPrompt with
  | Except.ok urls =>
      { referenceImageId := item.referenceImageId, vars := item.vars
      , processedPrompt := processedPrompt, imageUrls := urls, error := none }
  | Except.error e =>
      { referenceImageId := item.referenceImageId, vars := item.vars
      , processedPrompt := processTemplate tmpl item.vars, imageUrls := []
      , error := some (if e = "" then "Failed to generate image" else e) }

/-- `Promise.all(validatedData.items.map(processGenerationTask))`: every
item settles independently and the result list preserves submission
order. -/
def batchFlowerResults (env : ServerEnv) (gT : String → Except String String)
    (up : GenRequestBody → Except String (Option (List UpstreamImage)))
    (shared : BatchShared) (tmpl : FlowerTemplate) (items : List BatchItem) :
    List BatchResult :=
  items.map (processGenerationTask env gT up shared tmpl)

/-! ## Theorems -/

/-- Conversion keeps one file per buffer, in order. -/
theorem convertImageFiles_length (i : Nat) (l : List (List Nat)) :
    (convertImageFiles i l).length = l.length := by
  induction l generalizing i with
  | nil => rfl
  | cons b bs ih => simp [convertImageFiles, ih]

/-- C1: the resolved generation payload has `n = 1` whenever the model is
dall-e-3, whatever `n` the validated request carries, and carries the
requested `n` for every other model. Every generation request with model
m equals `{ p with model := m }` for itself, so the four conjuncts cover
all requests. -/
theorem c1_dalle3_forces_n_one (p : GenParams) :
    (buildGenerateRequestBody { p with model := ApiModel.dallE3 }).n = 1
    ∧ (buildGenerateRequestBody { p with model := ApiModel.dallE2 }).n = p.n
    ∧ (buildGenerateRequestBody { p with model := ApiModel.gptImage1 }).n = p.n
    ∧ (buildGenerateRequestBody { p with model := ApiModel.gemini }).n = p.n :=
  ⟨rfl, rfl, rfl, rfl⟩

/-- C2: a generation payload never carries a field that does not apply to
its model — `response_format` (and `style`, `quality`) are absent for
gpt-image-1 whatever the request holds, `quality`/`style` and all
gpt-image-1-only fields are absent for dall-e-2, and
`output_format`/`output_compression`/`background`/`moderation` are absent
for dall-e-3. Absent means the key is `none`, never a null or empty
value. -/
theorem c2_inapplicable_fields_omitted (p : GenParams) :
    (buildGenerateRequestBody { p with model := ApiModel.gptImage1 }).response_format = none
    ∧ (buildGenerateRequestBody { p with model := ApiModel.gptImage1 }).style = none
    ∧ (buildGenerateRequestBody { p with model := ApiModel.dallE2 }).quality = none
    ∧ (buildGenerateRequestBody { p with model := ApiModel.dallE2 }).style = none
    ∧ (buildGenerateRequestBody { p with model := ApiModel.dallE2 }).output_format = none
    ∧ (buildGenerateRequestBody { p with model := ApiModel.dallE2 }).output_compression = none
    ∧ (buildGenerateRequestBody { p with model := ApiModel.dallE2 }).background = none
    ∧ (buildGenerateRequestBody { p with model := ApiModel.dallE2 }).moderation = none
    ∧ (buildGenerateRequestBody { p with model := ApiModel.dallE3 }).output_format = none
    ∧ (buildGenerateRequestBody { p with model := ApiModel.dallE3 }).output_compression = none
    ∧ (buildGenerateRequestBody { p with model := ApiModel.dallE3 }).background = none
    ∧ (buildGenerateRequestBody { p with model := ApiModel.dallE3 }).moderation = none :=
  ⟨rfl, rfl, rfl, rfl, rfl, rfl, rfl, rfl, rfl, rfl, rfl, rfl⟩

/-- C6: the edit payload's `image` field is the first converted buffer for
dall-e-2 (later buffers ignored), the single converted file for
gpt-image-1 with one upload, and the ordered list of all converted files
for gpt-image-1 with several; a `mask` key is present exactly when a mask
buffer was supplied, and `response_format` is never present for
gpt-image-1. -/
theorem c6_edit_payload_shape (f f2 : List Nat) (fs : List (List Nat))
    (maskFile : Option (List Nat)) (p : EditParams) :
    (buildEditRequestBody (f :: fs) maskFile { p with model := EditModel.dallE2 }).image
      = some (ImagePayload.single (convertImageFile 0 f))
    ∧ (buildEditRequestBody [f] maskFile { p with model := EditModel.gptImage1 }).image
      = some (ImagePayload.single (convertImageFile 0 f))
    ∧ (buildEditRequestBody (f :: f2 :: fs) maskFile { p with model := EditModel.gptImage1 }).image
      = some (ImagePayload.multiple (convertImageFiles 0 (f :: f2 :: fs)))
    ∧ (convertImageFiles 0 (f :: f2 :: fs)).length = (f :: f2 :: fs).length
    ∧ (buildEditRequestBody (f :: fs) maskFile p).mask.isSome = maskFile.isSome
    ∧ (buildEditRequestBody (f :: fs) maskFile { p with model := EditModel.gptImage1 }).response_format
      = none := by
  refine ⟨rfl, rfl, rfl, convertImageFiles_length 0 _, ?_, rfl⟩
  cases maskFile <;> rfl

/-- C8: a supplied mask buffer reaches the upstream edit payload as a file
named `mask.png` labeled `image/png`, whatever its bytes and whatever the
model — the magic-byte classifier is never applied to it. -/
theorem c8_mask_always_png (imageFiles : List (List Nat)) (maskBytes : List Nat)
    (p : EditParams) :
    (buildEditRequestBody imageFiles (some maskBytes) p).mask
      = some { name := "mask.png", type := "image/png", data := maskBytes }
    ∧ (convertMask maskBytes).type = "image/png"
    ∧ (convertMask maskBytes).name = "mask.png" :=
  ⟨rfl, rfl, rfl⟩

/-- C4: the batch endpoint returns one result per submitted item, in
submission order; each result is a function of its own item alone, so a
failing item never affects a sibling; when an item's generation step
fails (throws) with message `e`, that item's result IS the failure
record — its id, its variables, its processed prompt, empty `imageUrls`
and `error` set to the caught message (with the source's fallback for an
empty one), which is always non-empty; when it succeeds, the result is
the success record with `error` absent. Template substitution
(`processTemplate`) is total in this code — pure string replacement, it
cannot throw — so the failures isolated here are exactly the throws of
the per-item try block (missing Gemini key, text-rewrite failure,
upstream failure, shape violation). -/
theorem c4_batch_isolation (env : ServerEnv) (gT : String → Except String String)
    (up : GenRequestBody → Except String (Option (List UpstreamImage)))
    (shared : BatchShared) (tmpl : FlowerTemplate) (items : List BatchItem)
    (i : Nat) (item : BatchItem) :
    (batchFlowerResults env gT up shared tmpl items).length = items.length
    ∧ (batchFlowerResults env gT up shared tmpl items)[i]?
        = (items[i]?).map (processGenerationTask env gT up shared tmpl)
    ∧ (processGenerationTask env gT up shared tmpl item).referenceImageId
        = item.referenceImageId
    ∧ (processGenerationTask env gT up shared tmpl item).vars = item.vars
    ∧ (processGenerationTask env gT up shared tmpl item).processedPrompt
        = processTemplate tmpl item.vars
    ∧ (∀ e, batchItemGen env gT up shared (processTemplate tmpl item.vars) = Except.error e →
        processGenerationTask env gT up shared tmpl item
          = { referenceImageId := item.referenceImageId, vars := item.vars
            , processedPrompt := processTemplate tmpl item.vars, imageUrls := []
            , error := some (if e = "" then "Failed to generate image" else e) }
          ∧ ∃ msg, (processGenerationTask env gT up shared tmpl item).error = some msg
              ∧ 1 ≤ msg.length)
    ∧ (∀ urls, batchItemGen env gT up shared (processTemplate tmpl item.vars) = Except.ok urls →
        processGenerationTask env gT up shared tmpl item
          = { referenceImageId := item.referenceImageId, vars := item.vars
            , processedPrompt := processTemplate tmpl item.vars, imageUrls := urls
            , error := none }) := by
  refine ⟨List.length_map _ _, by simp [batchFlowerResults], ?_⟩
  cases hg : batchItemGen env gT up shared (processTemplate tmpl item.vars) with
  | ok urls =>
    have hrec : processGenerationTask env gT up shared tmpl item =
        { referenceImageId := item.referenceImageId, vars := item.vars
        , processedPrompt := processTemplate tmpl item.vars, imageUrls := urls
        , error := none } := by
      simp [processGenerationTask, hg]
    refine ⟨by rw [hrec], by rw [hrec], by rw [hrec], ?_, ?_⟩
    · intro e he
      exact Except.noConfusion he
    · intro urls2 hu
      injection hu with h2
      subst h2
      exact hrec
  | error e0 =>
    have hrec : processGenerationTask env gT up shared tmpl item =
        { referenceImageId := item.referenceImageId, vars := item.vars
        , processedPrompt := processTemplate tmpl item.vars, imageUrls := []
        , error := some (if e0 = "" then "Failed to generate image" else e0) } := by
      simp [processGenerationTask, hg]
    have hne : ∃ msg, (processGenerationTask env gT up shared tmpl item).error = some msg
        ∧ 1 ≤ msg.length := by
      refine ⟨if e0 = "" then "Failed to generate image" else e0, by rw [hrec], ?_⟩
      by_cases he : e0 = ""
      · simp only [he, if_pos rfl]
        decide
      · have hd : e0.data ≠ [] := fun hnil => he (String.ext hnil)
        simpa [he] using List.length_pos.mpr hd
    refine ⟨by rw [hrec], by rw [hrec], by rw [hrec], ?_, ?_⟩
    · intro e he
      injection he with h2
      subst h2
      exact ⟨hrec, hne⟩
    · intro urls hu
      exact Except.noConfusion hu

/-- The environment, shared configuration and item of the C4 witness. -/
def c4Env : ServerEnv := { openaiApiKey := some "sk-test" }

def c4Shared : BatchShared := { model := ApiModel.dallE2, size := "512x512", n := 1 }

def c4Item : BatchItem := { referenceImageId := "r1", vars := [] }

/-- C4 witness: a concrete one-item batch whose upstream call fails with
"boom" — the generation step throws the wrapped message, and the
theorem yields that item's concrete failure record: id and variables
kept, processed prompt kept, empty `imageUrls`, the non-empty caught
message as `error`. -/
theorem c4_batch_isolation_witness :
    batchItemGen c4Env (fun _ => Except.ok "x") (fun _ => Except.error "boom") c4Shared
        (processTemplate singleBranchTemplate c4Item.vars)
      = Except.error "Failed to generate image: boom"
    ∧ processGenerationTask c4Env (fun _ => Except.ok "x") (fun _ => Except.error "boom")
        c4Shared singleBranchTemplate c4Item
      = { referenceImageId := "r1", vars := []
        , processedPrompt := processTemplate singleBranchTemplate c4Item.vars
        , imageUrls := [], error := some "Failed to generate image: boom" }
    ∧ (∃ msg, (processGenerationTask c4Env (fun _ => Except.ok "x")
        (fun _ => Except.error "boom") c4Shared singleBranchTemplate c4Item).error = some msg
        ∧ 1 ≤ msg.length)
    ∧ (batchFlowerResults c4Env (fun _ => Except.ok "x") (fun _ => Except.error "boom")
        c4Shared singleBranchTemplate [c4Item]).length = 1 := by
  have h := (c4_batch_isolation c4Env (fun _ => Except.ok "x") (fun _ => Except.error "boom")
    c4Shared singleBranchTemplate [c4Item] 0 c4Item).2.2.2.2.2.1
    "Failed to generate image: boom" rfl
  exact ⟨rfl, h.1, h.2, rfl⟩

/-- The classification rule exactly as C7 states it, at byte level
(stated from the spec's words, for comparison with `classifyMime` from
the source): first four bytes `89 50 4E 47` → PNG; otherwise first three
bytes `FF D8 FF` with the fourth byte's high nibble `E` (the hex prefix
`FF D8 FF E`) → JPEG; every other buffer (including one shorter than
four bytes) → WEBP. -/
def sniffedMime (buffer : List Nat) : String :=
  match buffer with
  | b0 :: b1 :: b2 :: b3 :: _ =>
    if b0 = 0x89 ∧ b1 = 0x50 ∧ b2 = 0x4e ∧ b3 = 0x47 then "image/png"
    else if b0 = 0xff ∧ b1 = 0xd8 ∧ b2 = 0xff ∧ b3 / 16 = 0xe then "image/jpeg"
    else "image/webp"
  | _ => "image/webp"

/-- `hexDigit` is injective on nibbles. -/
theorem hexDigit_inj16 : ∀ t, t < 16 → ∀ v, v < 16 → ((hexDigit t = hexDigit v) ↔ v = t) := by
  decide

theorem hexEq0 (v : Nat) (hv : v < 16) : ('0' = hexDigit v) ↔ v = 0 :=
  hexDigit_inj16 0 (by norm_num) v hv

theorem hexEq4 (v : Nat) (hv : v < 16) : ('4' = hexDigit v) ↔ v = 4 :=
  hexDigit_inj16 4 (by norm_num) v hv

theorem hexEq5 (v : Nat) (hv : v < 16) : ('5' = hexDigit v) ↔ v = 5 :=
  hexDigit_inj16 5 (by norm_num) v hv

theorem hexEq7 (v : Nat) (hv : v < 16) : ('7' = hexDigit v) ↔ v = 7 :=
  hexDigit_inj16 7 (by norm_num) v hv

theorem hexEq8 (v : Nat) (hv : v < 16) : ('8' = hexDigit v) ↔ v = 8 :=
  hexDigit_inj16 8 (by norm_num) v hv

theorem hexEq9 (v : Nat) (hv : v < 16) : ('9' = hexDigit v) ↔ v = 9 :=
  hexDigit_inj16 9 (by norm_num) v hv

theorem hexEqD (v : Nat) (hv : v < 16) : ('d' = hexDigit v) ↔ v = 13 :=
  hexDigit_inj16 13 (by norm_num) v hv

theorem hexEqE (v : Nat) (hv : v < 16) : ('e' = hexDigit v) ↔ v = 14 :=
  hexDigit_inj16 14 (by norm_num) v hv

theorem hexEqF (v : Nat) (hv : v < 16) : ('f' = hexDigit v) ↔ v = 15 :=
  hexDigit_inj16 15 (by norm_num) v hv

theorem pngHexChars : "89504e47".toList = ['8', '9', '5', '0', '4', 'e', '4', '7'] := rfl

theorem jpegHexChars : "ffd8ffe".toList = ['f', 'f', 'd', '8', 'f', 'f', 'e'] := rfl

/-- The PNG hex-prefix test, characterized on bytes. -/
theorem hexStartsWith_png (b0 b1 b2 b3 : Nat) (rest : List Nat)
    (h0 : b0 < 256) (h1 : b1 < 256) (h2 : b2 < 256) (h3 : b3 < 256) :
    (hexStartsWith (b0 :: b1 :: b2 :: b3 :: rest) "89504e47" = true)
      ↔ (b0 = 0x89 ∧ b1 = 0x50 ∧ b2 = 0x4e ∧ b3 = 0x47) := by
  have e0 := Nat.mod_eq_of_lt h0
  have e1 := Nat.mod_eq_of_lt h1
  have e2 := Nat.mod_eq_of_lt h2
  have e3 := Nat.mod_eq_of_lt h3
  simp only [hexStartsWith, pngHexChars, bytesToHex, leadingMatch, e0, e1, e2, e3,
    Bool.and_eq_true, beq_iff_eq, and_true]
  rw [hexEq8 (b0 / 16) (by omega), hexEq9 (b0 % 16) (by omega),
    hexEq5 (b1 / 16) (by omega), hexEq0 (b1 % 16) (by omega),
    hexEq4 (b2 / 16) (by omega), hexEqE (b2 % 16) (by omega),
    hexEq4 (b3 / 16) (by omega), hexEq7 (b3 % 16) (by omega)]
  omega

/-- The JPEG hex-prefix test, characterized on bytes. -/
theorem hexStartsWith_jpeg (b0 b1 b2 b3 : Nat) (rest : List Nat)
    (h0 : b0 < 256) (h1 : b1 < 256) (h2 : b2 < 256) (h3 : b3 < 256) :
    (hexStartsWith (b0 :: b1 :: b2 :: b3 :: rest) "ffd8ffe" = true)
      ↔ (b0 = 0xff ∧ b1 = 0xd8 ∧ b2 = 0xff ∧ b3 / 16 = 0xe) := by
  have e0 := Nat.mod_eq_of_lt h0
  have e1 := Nat.mod_eq_of_lt h1
  have e2 := Nat.mod_eq_of_lt h2
  have e3 := Nat.mod_eq_of_lt h3
  simp only [hexStartsWith, jpegHexChars, bytesToHex, leadingMatch, e0, e1, e2, e3,
    Bool.and_eq_true, beq_iff_eq, and_true]
  rw [hexEqF (b0 / 16) (by omega), hexEqF (b0 % 16) (by omega),
    hexEqD (b1 / 16) (by omega), hexEq8 (b1 % 16) (by omega),
    hexEqF (b2 / 16) (by omega), hexEqF (b2 % 16) (by omega),
    hexEqE (b3 / 16) (by omega)]
  omega

/-- C7: the magic-byte classifier labels exactly as the spec's rule — PNG
for a `89 50 4E 47` four-byte signature, else JPEG for the `FF D8 FF E`
hex prefix, else the WEBP fallback — on every buffer of bytes. The
classifier is a function of the bytes alone: no caller-provided filename
or extension is among its inputs. -/
theorem c7_mime_classifier_refines_sniff (buffer : List Nat)
    (h : ∀ b ∈ buffer, b < 256) :
    classifyMime buffer = sniffedMime buffer := by
  match buffer with
  | [] => rfl
  | [b0] =>
    simp [classifyMime, sniffedMime, hexStartsWith, pngHexChars, jpegHexChars,
      bytesToHex, leadingMatch]
  | [b0, b1] =>
    simp [classifyMime, sniffedMime, hexStartsWith, pngHexChars, jpegHexChars,
      bytesToHex, leadingMatch]
  | [b0, b1, b2] =>
    simp [classifyMime, sniffedMime, hexStartsWith, pngHexChars, jpegHexChars,
      bytesToHex, leadingMatch]
  | b0 :: b1 :: b2 :: b3 :: rest =>
    have h0 : b0 < 256 := h b0 (by simp)
    have h1 : b1 < 256 := h b1 (by simp)
    have h2 : b2 < 256 := h b2 (by simp)
    have h3 : b3 < 256 := h b3 (by simp)
    have hp := hexStartsWith_png b0 b1 b2 b3 rest h0 h1 h2 h3
    have hj := hexStartsWith_jpeg b0 b1 b2 b3 rest h0 h1 h2 h3
    simp only [classifyMime, sniffedMime]
    by_cases hc1 : b0 = 0x89 ∧ b1 = 0x50 ∧ b2 = 0x4e ∧ b3 = 0x47
    · rw [if_pos (hp.mpr hc1), if_pos hc1]
    · rw [if_neg (fun hb => hc1 (hp.mp hb)), if_neg hc1]
      by_cases hc2 : b0 = 0xff ∧ b1 = 0xd8 ∧ b2 = 0xff ∧ b3 / 16 = 0xe
      · rw [if_pos (hj.mpr hc2), if_pos hc2]
      · rw [if_neg (fun hb => hc2 (hj.mp hb)), if_neg hc2]

/-- C7 witness: the theorem applied to concrete buffers, one per class. -/
theorem c7_mime_classifier_refines_sniff_witness :
    (∀ b ∈ [0xff, 0xd8, 0xff, 0xe1, 7], b < 256)
    ∧ classifyMime [0xff, 0xd8, 0xff, 0xe1, 7] = sniffedMime [0xff, 0xd8, 0xff, 0xe1, 7]
    ∧ classifyMime [0xff, 0xd8, 0xff, 0xe1, 7] = "image/jpeg"
    ∧ classifyMime [0x89, 0x50, 0x4e, 0x47, 0] = "image/png"
    ∧ classifyMime [1, 2, 3] = "image/webp" := by
  refine ⟨by decide, ?_, by decide, by decide, by decide⟩
  exact c7_mime_classifier_refines_sniff [0xff, 0xd8, 0xff, 0xe1, 7] (by decide)

/-- C9: on the flower endpoint with the Gemini model selected (given a
configured OpenAI key and a valid template): an absent (or empty) Gemini
key fails with a 500 configuration error before any vendor call; with a
key present, the secondary vendor's text model is called on the processed
prompt and — when the rewrite succeeds — the image generation is
dispatched to the primary vendor with the model forced to gpt-image-1
and the enhanced prompt; the secondary vendor's image endpoint is never
called. -/
theorem c9_gemini_flower_path (env : ServerEnv) (gT : String → Except String String)
    (up : GenRequestBody → Except String (Option (List UpstreamImage)))
    (req : FlowerRequest) (tmpl : FlowerTemplate)
    (hmodel : req.model = ApiModel.gemini)
    (hkey : keyOkSk env.openaiApiKey = true)
    (htmpl : findFlowerTemplate req.templateId = some tmpl) :
    (keyTruthy env.geminiApiKey = false →
       flowerGenerateCore env gT up req
         = { status := 500, message := some "Gemini API key not configured on server"
           , imageUrls := none, calls := [] })
    ∧ (∀ enhanced, keyTruthy env.geminiApiKey = true →
        gT (processTemplate tmpl req.vars) = Except.ok enhanced →
          (flowerGenerateCore env gT up req).calls
            = [VendorCall.geminiText (processTemplate tmpl req.vars),
               VendorCall.openaiImages
                 (buildGenerateRequestBody (flowerGeminiParams req enhanced))]
          ∧ (flowerGeminiParams req enhanced).model = ApiModel.gptImage1
          ∧ (flowerGeminiParams req enhanced).prompt = enhanced)
    ∧ (∀ q, ¬ VendorCall.geminiImage q ∈ (flowerGenerateCore env gT up req).calls) := by
  refine ⟨?_, ?_, ?_⟩
  · intro hg
    simp [flowerGenerateCore, hkey, htmpl, hmodel, hg]
  · intro enhanced hg hok
    refine ⟨?_, rfl, rfl⟩
    cases hup : generateImageFn up (flowerGeminiParams req enhanced) <;>
      simp [flowerGenerateCore, hkey, htmpl, hmodel, hg, hok, hup]
  · intro q
    cases hg : keyTruthy env.geminiApiKey with
    | false => simp [flowerGenerateCore, hkey, htmpl, hmodel, hg]
    | true =>
      cases hok : gT (processTemplate tmpl req.vars) with
      | error e => simp [flowerGenerateCore, hkey, htmpl, hmodel, hg, hok]
      | ok enhanced =>
        cases hup : generateImageFn up (flowerGeminiParams req enhanced) <;>
          simp [flowerGenerateCore, hkey, htmpl, hmodel, hg, hok, hup]

/-- The environment of the C9 witness: OpenAI key configured, Gemini key
absent. -/
def geminiMissingEnv : ServerEnv := { openaiApiKey := some "sk-test" }

/-- The flower request of the C9 witness: Gemini model, valid template. -/
def geminiFlowerReq : FlowerRequest :=
  { templateId := "single-branch", vars := [], model := ApiModel.gemini
  , size := "1024x1024", n := 1 }

/-- C9 witness: the theorem applied at a concrete request with the Gemini
key absent — the request fails with the configuration error and no
vendor call is recorded. -/
theorem c9_gemini_flower_path_witness :
    keyOkSk geminiMissingEnv.openaiApiKey = true
    ∧ findFlowerTemplate geminiFlowerReq.templateId = some singleBranchTemplate
    ∧ flowerGenerateCore geminiMissingEnv (fun _ => Except.ok "enhanced")
        (fun _ => Except.ok (some [])) geminiFlowerReq
      = { status := 500, message := some "Gemini API key not configured on server"
        , imageUrls := none, calls := [] } := by
  refine ⟨rfl, rfl, ?_⟩
  exact (c9_gemini_flower_path geminiMissingEnv (fun _ => Except.ok "enhanced")
    (fun _ => Except.ok (some [])) geminiFlowerReq singleBranchTemplate
    rfl rfl rfl).1 rfl

/-- A body that fails `generateImageSchema`: its prompt is present but
empty, violating `min(1, "Prompt is required")`. -/
def badGenerateBody : RawGenerateBody := { prompt := some "" }

/-- C5 counterexample to the claim as stated: a body that fails schema
validation is answered with HTTP 500, not 400 — the `/api/generate`
handler's catch-all wraps the Zod throw in a 500 response. No upstream
request is issued, as the claim says. -/
theorem c5_validation_status_counterexample :
    parseGenerateBody badGenerateBody = Except.error "Prompt is required"
    ∧ (generateHandler { openaiApiKey := some "sk-test" }
        (fun _ => Except.ok (some [])) badGenerateBody).status = 500
    ∧ ¬ (generateHandler { openaiApiKey := some "sk-test" }
        (fun _ => Except.ok (some [])) badGenerateBody).status = 400
    ∧ (generateHandler { openaiApiKey := some "sk-test" }
        (fun _ => Except.ok (some [])) badGenerateBody).upstreamRequests = [] :=
  ⟨rfl, rfl, by decide, rfl⟩

/-- C5 (amended): a request body that fails schema validation is answered
with HTTP 500 carrying the schema violation message (the catch-all path),
and no upstream image-API request is attempted. -/
theorem c5_validation_amended (env : ServerEnv)
    (up : GenRequestBody → Except String (Option (List UpstreamImage)))
    (raw : RawGenerateBody) (e : String)
    (h : parseGenerateBody raw = Except.error e) :
    generateHandler env up raw =
      { status := 500
      , message := some (if e = "" then
          "Failed to generate image. Please check your prompt and try again." else e)
      , imageUrls := none
      , upstreamRequests := [] } := by
  unfold generateHandler
  rw [h]

/-- C5 witness: the amended theorem applied to the concrete invalid body. -/
theorem c5_validation_amended_witness :
    parseGenerateBody badGenerateBody = Except.error "Prompt is required"
    ∧ generateHandler { openaiApiKey := some "sk-test" }
        (fun _ => Except.ok (some [])) badGenerateBody
      = { status := 500, message := some "Prompt is required"
        , imageUrls := none, upstreamRequests := [] } := by
  refine ⟨rfl, ?_⟩
  exact c5_validation_amended { openaiApiKey := some "sk-test" }
    (fun _ => Except.ok (some [])) badGenerateBody "Prompt is required" rfl

/-- The spec's per-image mapping rule, amended to JS truthiness: a
non-empty `url` is emitted verbatim, otherwise the non-empty `b64_json`
payload is emitted behind the data-URL prefix. (Stated from the spec's
words, for comparison with `normalizeImage` from the source.) -/
def specImageString (img : UpstreamImage) : String :=
  if strTruthy img.url then img.url.getD ""
  else "data:image/png;base64," ++ img.b64_json.getD ""

/-- A valid image (one truthy field) normalizes to the spec's mapping. -/
theorem normalizeImage_ok_of_valid (img : UpstreamImage)
    (h : strTruthy img.url = true ∨ strTruthy img.b64_json = true) :
    normalizeImage img = Except.ok (specImageString img) := by
  cases hu : strTruthy img.url with
  | true => simp [normalizeImage, specImageString, hu]
  | false =>
    rcases h with h | h
    · rw [hu] at h; cases h
    · simp [normalizeImage, specImageString, hu, h]

/-- The normalizer can only throw its shape-violation message. -/
theorem normalizeImage_error_msg (img : UpstreamImage) (e : String)
    (h : normalizeImage img = Except.error e) :
    e = "Invalid response format from OpenAI API" := by
  unfold normalizeImage at h
  by_cases h1 : strTruthy img.url <;> by_cases h2 : strTruthy img.b64_json <;>
    simp [h1, h2] at h
  all_goals exact h.symm

/-- A list of valid images normalizes element-wise. -/
theorem normalizeImages_ok_of_valid (imgs : List UpstreamImage)
    (h : ∀ x ∈ imgs, strTruthy x.url = true ∨ strTruthy x.b64_json = true) :
    normalizeImages imgs = Except.ok (imgs.map specImageString) := by
  induction imgs with
  | nil => rfl
  | cons a as ih =>
    have ha := h a (List.mem_cons_self a as)
    have has : ∀ x ∈ as, strTruthy x.url = true ∨ strTruthy x.b64_json = true :=
      fun x hx => h x (List.mem_cons_of_mem a hx)
    simp [normalizeImages, normalizeImage_ok_of_valid a ha, ih has]

/-- One invalid element anywhere makes the whole map throw the
shape-violation message. -/
theorem normalizeImages_error_of_invalid (imgs : List UpstreamImage) (img : UpstreamImage)
    (hmem : img ∈ imgs) (hu : strTruthy img.url = false)
    (hb : strTruthy img.b64_json = false) :
    normalizeImages imgs = Except.error "Invalid response format from OpenAI API" := by
  induction imgs with
  | nil => cases hmem
  | cons a as ih =>
    rcases List.mem_cons.mp hmem with rfl | hmem2
    · simp [normalizeImages, normalizeImage, hu, hb]
    · cases hna : normalizeImage a with
      | error e =>
        rw [normalizeImage_error_msg a e hna] at hna
        simp [normalizeImages, hna]
      | ok s => simp [normalizeImages, hna, ih hmem2]

/-- C3 (amended to JS truthiness): the normalizer preserves length and
order; an element with a non-empty `url` maps to that URL byte-for-byte;
an element without a non-empty `url` but with a non-empty `b64_json` maps
to "data:image/png;base64," followed by the payload; an element with
neither non-empty field makes the whole call fail with the
invalid-response-format error; and an empty (or absent) upstream list
yields an empty output list, not an error. -/
theorem c3_normalizer_amended (imgs : List UpstreamImage) (img : UpstreamImage) :
    normalizeResponse none = Except.ok []
    ∧ normalizeResponse (some []) = Except.ok []
    ∧ ((∀ x ∈ imgs, strTruthy x.url = true ∨ strTruthy x.b64_json = true) →
        normalizeResponse (some imgs) = Except.ok (imgs.map specImageString))
    ∧ (imgs.map specImageString).length = imgs.length
    ∧ (strTruthy img.url = true → specImageString img = img.url.getD "")
    ∧ (strTruthy img.url = false → strTruthy img.b64_json = true →
        specImageString img = "data:image/png;base64," ++ img.b64_json.getD "")
    ∧ (img ∈ imgs → strTruthy img.url = false → strTruthy img.b64_json = false →
        normalizeResponse (some imgs)
          = Except.error "Invalid response format from OpenAI API") := by
  refine ⟨rfl, rfl, ?_, List.length_map _ _, ?_, ?_, ?_⟩
  · intro h
    simpa [normalizeResponse] using normalizeImages_ok_of_valid imgs h
  · intro hu; simp [specImageString, hu]
  · intro hu _; simp [specImageString, hu]
  · intro hmem hu hb
    simpa [normalizeResponse] using normalizeImages_error_of_invalid imgs img hmem hu hb

/-- C3 counterexample to the claim as stated: an element that HAS a `url`
key holding the empty string is not emitted verbatim — the code's JS
truthiness test skips it, emitting the base64 form instead (first
conjunct), or failing the whole call when no payload is present (second
conjunct), while the claim requires the empty URL to be emitted
unchanged in both cases. -/
theorem c3_empty_url_counterexample :
    normalizeResponse (some [{ url := some "", b64_json := some "payload" }])
      = Except.ok ["data:image/png;base64,payload"]
    ∧ normalizeResponse (some [{ url := some "", b64_json := none }])
      = Except.error "Invalid response format from OpenAI API"
    ∧ ("data:image/png;base64,payload" : String) ≠ "" :=
  ⟨rfl, rfl, by decide⟩

/-- C3 witness: the amended theorem applied to a concrete two-element
upstream list, one element per branch of the mapping rule. -/
theorem c3_normalizer_amended_witness :
    (∀ x ∈ [({ url := some "http://a", b64_json := none } : UpstreamImage),
            { url := none, b64_json := some "abc" }],
        strTruthy x.url = true ∨ strTruthy x.b64_json = true)
    ∧ normalizeResponse (some [{ url := some "http://a", b64_json := none },
                               { url := none, b64_json := some "abc" }])
        = Except.ok ["http://a", "data:image/png;base64,abc"] := by
  refine ⟨by decide, ?_⟩
  exact (c3_normalizer_amended
    [{ url := some "http://a", b64_json := none },
     { url := none, b64_json := some "abc" }]
    { url := none, b64_json := none }).2.2.1 (by decide)

/-- C10: the variations payload labels the uploaded buffer `image/png`
regardless of its bytes (no magic-byte sniff on this path), always
carries `n`, `size` and `response_format` copied from the request, and
carries a `user` key exactly when the request's `user` is a non-empty
string. -/
theorem c10_variations_payload (imageFile : List Nat) (p : VariationParams) :
    (buildVariationRequestBody imageFile p).image.type = "image/png"
    ∧ (buildVariationRequestBody imageFile p).image.data = imageFile
    ∧ (buildVariationRequestBody imageFile p).n = p.n
    ∧ (buildVariationRequestBody imageFile p).size = p.size
    ∧ (buildVariationRequestBody imageFile p).response_format = p.response_format
    ∧ (buildVariationRequestBody imageFile p).user.isSome = strTruthy p.user
    ∧ (buildVariationRequestBody imageFile p).user = optTruthy p.user := by
  refine ⟨rfl, rfl, rfl, rfl, rfl, ?_, rfl⟩
  cases hu : p.user with
  | none => simp [buildVariationRequestBody, optTruthy, strTruthy, hu]
  | some u =>
    by_cases h : u = "" <;>
      simp [buildVariationRequestBody, optTruthy, strTruthy, hu, h]

end ImageGen
